import Mathlib

/-!
Verification of the alarm-triggered traffic-weight adjuster
(src/lambda/getting_close_weighting/getting_close_handler.py).

The handler reads the subject of the first SNS record of its trigger event,
reads three ARNs from the environment, and issues a single
elbv2 modify_listener call that sets the Lambda target group weight to 0
and the ECS target group weight to 100.

The embedding models:
  - the event as an optional list of records, each with an optional SNS body
    holding an optional subject string (absence of a key = Python KeyError,
    empty record list = Python IndexError);
  - the environment as a partial map from variable names to strings;
  - the elbv2 client as a function from the modify_listener request to a
    success-or-error outcome; the handler run returns both its outcome and
    the list of control-plane requests it attempted, in order.
-/

set_option linter.unusedVariables false

namespace GettingClose

/-- Python exceptions surfaced by the handler: dictionary lookup errors,
list index errors, and errors raised by the AWS client call. -/
inductive Err where
  | keyError (key : String)
  | indexError
  | clientError (msg : String)
deriving DecidableEq

/-- A lookup error is a KeyError or IndexError (as opposed to an error of
the external control-plane call). -/
def Err.isLookup : Err → Bool
  | .keyError _ => true
  | .indexError => true
  | .clientError _ => false

/-- The `Sns` dictionary of a record; `subject = none` models the absence of
the `Subject` key. -/
structure SnsBody where
  subject : Option String
deriving DecidableEq

/-- One record of the trigger event; `sns = none` models the absence of the
`Sns` key. -/
structure SnsRecord where
  sns : Option SnsBody
deriving DecidableEq

/-- The trigger event; `records = none` models the absence of the `Records`
key. -/
structure Event where
  records : Option (List SnsRecord)
deriving DecidableEq

/-- One entry of the `TargetGroups` list of a forward config. -/
structure TargetGroupTuple where
  targetGroupArn : String
  weight : Nat
deriving DecidableEq

/-- The `ForwardConfig` of a listener action. -/
structure ForwardConfig where
  targetGroups : List TargetGroupTuple
deriving DecidableEq

/-- One entry of the `DefaultActions` list of a modify_listener request. -/
structure Action where
  actionType : String
  order : Nat
  forwardConfig : ForwardConfig
deriving DecidableEq

/-- The arguments of one elbv2 `modify_listener` request. -/
structure ModifyListenerCall where
  listenerArn : String
  port : Nat
  protocol : String
  defaultActions : List Action
deriving DecidableEq

/-- The environment: a partial map from variable names to values. -/
def Env : Type := String → Option String

/-- The elbv2 client: given a modify_listener request it either succeeds or
raises an error. -/
def ElbClient : Type := ModifyListenerCall → Except Err Unit

/-- The evaluation of `event["Records"][0]["Sns"]["Subject"]` (line 18 of
the handler), with the exception each missing piece raises in Python. -/
def firstSubject (event : Event) : Except Err String :=
  match event.records with
  | none => Except.error (Err.keyError "Records")
  | some [] => Except.error Err.indexError
  | some (record :: _) =>
    match record.sns with
    | none => Except.error (Err.keyError "Sns")
    | some sns =>
      match sns.subject with
      | none => Except.error (Err.keyError "Subject")
      | some m => Except.ok m

/-- The evaluation of `event["Records"][0]` alone: the first record of the
event, or the exception its absence raises. -/
def firstRecord (event : Event) : Except Err SnsRecord :=
  match event.records with
  | none => Except.error (Err.keyError "Records")
  | some [] => Except.error Err.indexError
  | some (record :: _) => Except.ok record

/-- The modify_listener request built by `direct_traffic_to_ecs`:
listener ARN, port 80, protocol HTTP, one forward action whose target
groups are the Lambda group at weight 0 and the ECS group at weight 100,
in that order. -/
def modify_listener_request (listener_arn lambda_target_group_arn ecs_target_group_arn : String) :
    ModifyListenerCall :=
  { listenerArn := listener_arn
    port := 80
    protocol := "HTTP"
    defaultActions :=
      [ { actionType := "forward"
          order := 1
          forwardConfig :=
            { targetGroups :=
                [ { targetGroupArn := lambda_target_group_arn, weight := 0 }
                , { targetGroupArn := ecs_target_group_arn, weight := 100 } ] } } ] }

/-- `direct_traffic_to_ecs`: issues the single modify_listener request
through the client; the result pairs the outcome (the client's error
propagates unchanged) with the list of requests attempted. -/
def direct_traffic_to_ecs (elb_client : ElbClient)
    (listener_arn lambda_target_group_arn ecs_target_group_arn : String) :
    Except Err Unit × List ModifyListenerCall :=
  let call := modify_listener_request listener_arn lambda_target_group_arn ecs_target_group_arn
  match elb_client call with
  | Except.error e => (Except.error e, [call])
  | Except.ok _ => (Except.ok (), [call])

/-- The Lambda `handler`: reads the first record's subject (raising on a
malformed event), reads the three environment variables in order (raising
on the first missing one), then calls `direct_traffic_to_ecs`. The
`context` argument is taken at an arbitrary type, as the source never
touches it. The result pairs the outcome with the list of control-plane
requests attempted. -/
def handler {Ctx : Type} (elb_client : ElbClient) (event : Event) (context : Ctx)
    (env : Env) : Except Err Unit × List ModifyListenerCall :=
  match firstSubject event with
  | Except.error e => (Except.error e, [])
  | Except.ok _message =>
    match env "LISTENER_ARN" with
    | none => (Except.error (Err.keyError "LISTENER_ARN"), [])
    | some listener_arn =>
      match env "LAMBDA_TARGET_GROUP_ARN" with
      | none => (Except.error (Err.keyError "LAMBDA_TARGET_GROUP_ARN"), [])
      | some lambda_target_group_arn =>
        match env "ECS_TARGET_GROUP_ARN" with
        | none => (Except.error (Err.keyError "ECS_TARGET_GROUP_ARN"), [])
        | some ecs_target_group_arn =>
          direct_traffic_to_ecs elb_client listener_arn lambda_target_group_arn
            ecs_target_group_arn

/-- The listener state affected by modify_listener: modify_listener
replaces the port, protocol and default actions with those of the
request. -/
structure ListenerState where
  port : Nat
  protocol : String
  defaultActions : List Action
deriving DecidableEq

/-- The transition a modify_listener request performs on the listener. -/
def applyModifyListener (call : ModifyListenerCall) (s : ListenerState) : ListenerState :=
  { port := call.port, protocol := call.protocol, defaultActions := call.defaultActions }

/-! ### Helper lemmas -/

/-- A run of `direct_traffic_to_ecs` attempts exactly its one request,
whether the client succeeds or fails. -/
theorem direct_traffic_to_ecs_calls (elb_client : ElbClient) (l fn ecs : String) :
    (direct_traffic_to_ecs elb_client l fn ecs).2 = [modify_listener_request l fn ecs] := by
  rcases h : elb_client (modify_listener_request l fn ecs) with e | u <;>
    simp [direct_traffic_to_ecs, h]

/-- When the event parses and the three variables are present, the handler
run is exactly the `direct_traffic_to_ecs` run on the three values read. -/
theorem handler_run {Ctx : Type} (elb_client : ElbClient) (ev : Event) (ctx : Ctx)
    (env : Env) (subj l fn ecs : String)
    (hs : firstSubject ev = Except.ok subj)
    (hl : env "LISTENER_ARN" = some l)
    (hf : env "LAMBDA_TARGET_GROUP_ARN" = some fn)
    (he : env "ECS_TARGET_GROUP_ARN" = some ecs) :
    handler elb_client ev ctx env = direct_traffic_to_ecs elb_client l fn ecs := by
  unfold handler
  rw [hs, hl, hf, he]

/-- Every error of `firstSubject` is a lookup error. -/
theorem firstSubject_error_isLookup (ev : Event) (e : Err)
    (h : firstSubject ev = Except.error e) : e.isLookup = true := by
  unfold firstSubject at h
  rcases ev with ⟨_ | (_ | ⟨⟨_ | ⟨_ | s⟩⟩, rs⟩)⟩ <;>
    simp_all <;> subst h <;> rfl

/-- A handler run either stops with a lookup error and an empty request
list, or reads the subject and the three variables and runs
`direct_traffic_to_ecs` on them. -/
theorem handler_spec {Ctx : Type} (elb_client : ElbClient) (ev : Event) (ctx : Ctx)
    (env : Env) :
    (∃ e, Err.isLookup e = true ∧ handler elb_client ev ctx env = (Except.error e, [])) ∨
    (∃ subj l fn ecs, firstSubject ev = Except.ok subj ∧
      env "LISTENER_ARN" = some l ∧
      env "LAMBDA_TARGET_GROUP_ARN" = some fn ∧
      env "ECS_TARGET_GROUP_ARN" = some ecs ∧
      handler elb_client ev ctx env = direct_traffic_to_ecs elb_client l fn ecs) := by
  rcases hsubj : firstSubject ev with e | subj
  · exact Or.inl ⟨e, firstSubject_error_isLookup ev e hsubj, by unfold handler; rw [hsubj]⟩
  · rcases hl : env "LISTENER_ARN" with _ | l
    · exact Or.inl ⟨Err.keyError "LISTENER_ARN", rfl, by unfold handler; rw [hsubj, hl]⟩
    · rcases hf : env "LAMBDA_TARGET_GROUP_ARN" with _ | fn
      · exact Or.inl ⟨Err.keyError "LAMBDA_TARGET_GROUP_ARN", rfl,
          by unfold handler; rw [hsubj, hl, hf]⟩
      · rcases he : env "ECS_TARGET_GROUP_ARN" with _ | ecs
        · exact Or.inl ⟨Err.keyError "ECS_TARGET_GROUP_ARN", rfl,
            by unfold handler; rw [hsubj, hl, hf, he]⟩
        · exact Or.inr ⟨subj, l, fn, ecs, rfl, rfl, rfl, rfl,
            handler_run elb_client ev ctx env subj l fn ecs hsubj hl hf he⟩

/-- On every malformed event (no Records key, empty record list, no Sns
key, or no Subject key), the subject lookup raises the corresponding
lookup error. -/
theorem firstSubject_error_of_malformed (ev : Event)
    (h : ev.records = none ∨ ev.records = some [] ∨
         (∃ r rs, ev.records = some (r :: rs) ∧ r.sns = none) ∨
         (∃ r rs b, ev.records = some (r :: rs) ∧ r.sns = some b ∧ b.subject = none)) :
    ∃ e, (e = Err.keyError "Records" ∨ e = Err.indexError ∨ e = Err.keyError "Sns" ∨
          e = Err.keyError "Subject") ∧ firstSubject ev = Except.error e := by
  rcases h with h | h | ⟨r, rs, h, hr⟩ | ⟨r, rs, b, h, hr, hb⟩
  · exact ⟨Err.keyError "Records", Or.inl rfl, by simp [firstSubject, h]⟩
  · exact ⟨Err.indexError, Or.inr (Or.inl rfl), by simp [firstSubject, h]⟩
  · exact ⟨Err.keyError "Sns", Or.inr (Or.inr (Or.inl rfl)), by simp [firstSubject, h, hr]⟩
  · exact ⟨Err.keyError "Subject", Or.inr (Or.inr (Or.inr rfl)),
      by simp [firstSubject, h, hr, hb]⟩

/-- The subject lookup only consults the first record: two events with the
same first-record outcome have the same subject outcome. -/
theorem firstSubject_eq_of_firstRecord_eq (ev ev2 : Event)
    (h : firstRecord ev = firstRecord ev2) : firstSubject ev = firstSubject ev2 := by
  rcases ev with ⟨_ | (_ | ⟨r, rs⟩)⟩ <;> rcases ev2 with ⟨_ | (_ | ⟨r2, rs2⟩)⟩ <;>
    simp_all [firstRecord, firstSubject]

/-! ### Concrete fixtures used by the witnesses -/

/-- The spec's scenario event: one record whose subject is
"ALARM: high concurrency". -/
def wEvent : Event :=
  { records := some [ { sns := some { subject := some "ALARM: high concurrency" } } ] }

/-- A second valid event with a different subject and extra records. -/
def wEvent2 : Event :=
  { records := some [ { sns := some { subject := some "OK: back to normal" } }
                    , { sns := none } ] }

/-- The spec's scenario environment: the three ARNs of the scenario. -/
def wEnv : Env := fun k =>
  if k = "LISTENER_ARN" then some "L1"
  else if k = "LAMBDA_TARGET_GROUP_ARN" then some "G-fn"
  else if k = "ECS_TARGET_GROUP_ARN" then some "G-ecs"
  else none

/-- The scenario environment with LISTENER_ARN unset. -/
def wEnvNoListener : Env := fun k =>
  if k = "LAMBDA_TARGET_GROUP_ARN" then some "G-fn"
  else if k = "ECS_TARGET_GROUP_ARN" then some "G-ecs"
  else none

/-- An environment with none of the variables set. -/
def wEnvEmpty : Env := fun _ => none

/-- A client that always succeeds. -/
def wOkClient : ElbClient := fun _ => Except.ok ()

/-- A client that always fails with an authorization error. -/
def wFailClient : ElbClient := fun _ => Except.error (Err.clientError "AccessDenied")

/-! ### Claims -/

/-- C1: for every trigger event whose first record carries a subject string
and every environment providing the three identifiers, the handler issues
exactly one modify_listener call, whose single forward action weights the
container (ECS) group at 100 and the function (Lambda) group at 0; and the
issued call list is the same for every such event, whatever its subject
string. -/
theorem C1_exactly_one_weighted_call {Ctx1 Ctx2 : Type} (elb_client : ElbClient)
    (ev ev2 : Event) (ctx : Ctx1) (ctx2 : Ctx2) (env : Env) (subj subj2 l fn ecs : String)
    (hs : firstSubject ev = Except.ok subj)
    (hs2 : firstSubject ev2 = Except.ok subj2)
    (hl : env "LISTENER_ARN" = some l)
    (hf : env "LAMBDA_TARGET_GROUP_ARN" = some fn)
    (he : env "ECS_TARGET_GROUP_ARN" = some ecs) :
    (handler elb_client ev ctx env).2 = [modify_listener_request l fn ecs] ∧
    (modify_listener_request l fn ecs).defaultActions.map
        (fun a => a.forwardConfig.targetGroups) =
      [ [ { targetGroupArn := fn, weight := 0 }
        , { targetGroupArn := ecs, weight := 100 } ] ] ∧
    (handler elb_client ev2 ctx2 env).2 = (handler elb_client ev ctx env).2 := by
  have h1 := handler_run elb_client ev ctx env subj l fn ecs hs hl hf he
  have h2 := handler_run elb_client ev2 ctx2 env subj2 l fn ecs hs2 hl hf he
  refine ⟨?_, rfl, ?_⟩
  · rw [h1]
    exact direct_traffic_to_ecs_calls elb_client l fn ecs
  · rw [h1, h2]

/-- Witness for C1 at the spec's scenario inputs, with a second event whose
subject differs. -/
theorem C1_exactly_one_weighted_call_witness :
    (handler wOkClient wEvent 0 wEnv).2 = [modify_listener_request "L1" "G-fn" "G-ecs"] ∧
    (modify_listener_request "L1" "G-fn" "G-ecs").defaultActions.map
        (fun a => a.forwardConfig.targetGroups) =
      [ [ { targetGroupArn := "G-fn", weight := 0 }
        , { targetGroupArn := "G-ecs", weight := 100 } ] ] ∧
    (handler wOkClient wEvent2 true wEnv).2 = (handler wOkClient wEvent 0 wEnv).2 :=
  C1_exactly_one_weighted_call wOkClient wEvent wEvent2 0 true wEnv
    "ALARM: high concurrency" "OK: back to normal" "L1" "G-fn" "G-ecs"
    rfl rfl rfl rfl rfl

/-- C2: if any of LISTENER_ARN, LAMBDA_TARGET_GROUP_ARN, ECS_TARGET_GROUP_ARN
is absent from the environment, the handler fails with a lookup error and
the list of attempted control-plane calls is empty. -/
theorem C2_missing_env_means_no_call {Ctx : Type} (elb_client : ElbClient) (ev : Event)
    (ctx : Ctx) (env : Env)
    (h : env "LISTENER_ARN" = none ∨ env "LAMBDA_TARGET_GROUP_ARN" = none ∨
         env "ECS_TARGET_GROUP_ARN" = none) :
    ∃ e, Err.isLookup e = true ∧ handler elb_client ev ctx env = (Except.error e, []) := by
  rcases handler_spec elb_client ev ctx env with hcase | ⟨subj, l, fn, ecs, _, hl, hf, he, _⟩
  · exact hcase
  · rcases h with h | h | h <;> simp_all

/-- Witness for C2: scenario event, environment with LISTENER_ARN unset. -/
theorem C2_missing_env_means_no_call_witness :
    ∃ e, Err.isLookup e = true ∧
      handler wOkClient wEvent 0 wEnvNoListener = (Except.error e, []) :=
  C2_missing_env_means_no_call wOkClient wEvent 0 wEnvNoListener (Or.inl rfl)

/-- C3: for the event whose one record has subject "ALARM: high concurrency"
and the environment L1 / G-fn / G-ecs, the handler succeeds and issues
exactly one call: modify listener L1, port 80, protocol HTTP, one forward
action with target groups G-fn at weight 0 then G-ecs at weight 100, in
that order. -/
theorem C3_concrete_scenario :
    handler wOkClient wEvent 0 wEnv =
      (Except.ok (),
        [ { listenerArn := "L1"
            port := 80
            protocol := "HTTP"
            defaultActions :=
              [ { actionType := "forward"
                  order := 1
                  forwardConfig :=
                    { targetGroups :=
                        [ { targetGroupArn := "G-fn", weight := 0 }
                        , { targetGroupArn := "G-ecs", weight := 100 } ] } } ] } ]) := by
  rfl

/-- C4: when the three variables are present and the event is well formed,
an error raised by the modify_listener call propagates unchanged as the
handler's outcome, with exactly that one call attempted and no retry. -/
theorem C4_client_error_propagates {Ctx : Type} (elb_client : ElbClient) (ev : Event)
    (ctx : Ctx) (env : Env) (subj l fn ecs : String) (e : Err)
    (hs : firstSubject ev = Except.ok subj)
    (hl : env "LISTENER_ARN" = some l)
    (hf : env "LAMBDA_TARGET_GROUP_ARN" = some fn)
    (he : env "ECS_TARGET_GROUP_ARN" = some ecs)
    (hc : elb_client (modify_listener_request l fn ecs) = Except.error e) :
    handler elb_client ev ctx env = (Except.error e, [modify_listener_request l fn ecs]) := by
  rw [handler_run elb_client ev ctx env subj l fn ecs hs hl hf he]
  simp [direct_traffic_to_ecs, hc]

/-- Witness for C4: the always-failing client's error surfaces as the
handler outcome at the scenario inputs. -/
theorem C4_client_error_propagates_witness :
    handler wFailClient wEvent 0 wEnv =
      (Except.error (Err.clientError "AccessDenied"),
        [modify_listener_request "L1" "G-fn" "G-ecs"]) :=
  C4_client_error_propagates wFailClient wEvent 0 wEnv
    "ALARM: high concurrency" "L1" "G-fn" "G-ecs" (Err.clientError "AccessDenied")
    rfl rfl rfl rfl rfl

/-- C5: the weight-setting transition is idempotent: applying the handler's
modify_listener request to any listener state N times (N at least 1) yields
the same final listener rule as applying it once. -/
theorem C5_idempotent (l fn ecs : String) (s : ListenerState) (n : Nat) (h : 1 ≤ n) :
    (applyModifyListener (modify_listener_request l fn ecs))^[n] s =
      applyModifyListener (modify_listener_request l fn ecs) s := by
  obtain ⟨m, rfl⟩ : ∃ m, n = m + 1 := ⟨n - 1, (Nat.succ_pred_eq_of_pos h).symm⟩
  rw [Function.iterate_succ_apply]
  exact Function.iterate_fixed rfl m

/-- Witness for C5: three applications on a concrete starting state equal
one application. -/
theorem C5_idempotent_witness :
    1 ≤ 3 ∧
    (applyModifyListener (modify_listener_request "L1" "G-fn" "G-ecs"))^[3]
        { port := 443, protocol := "HTTPS", defaultActions := [] } =
      applyModifyListener (modify_listener_request "L1" "G-fn" "G-ecs")
        { port := 443, protocol := "HTTPS", defaultActions := [] } :=
  ⟨by decide,
    C5_idempotent "L1" "G-fn" "G-ecs"
      { port := 443, protocol := "HTTPS", defaultActions := [] } 3 (by decide)⟩

/-- An event with no Records key at all. -/
def wEventNoRecords : Event := { records := none }

/-- The scenario event with a second, malformed record appended. -/
def wEventExtra : Event :=
  { records := some [ { sns := some { subject := some "ALARM: high concurrency" } }
                    , { sns := none } ] }

/-- An environment with an extra unrelated variable on top of the
scenario's three. -/
def wEnvExtra : Env := fun k => if k = "OTHER_VAR" then some "x" else wEnv k

/-- An environment mapping the three variables to empty or malformed
strings. -/
def wEnvOdd : Env := fun k =>
  if k = "LISTENER_ARN" then some ""
  else if k = "LAMBDA_TARGET_GROUP_ARN" then some "not an arn"
  else if k = "ECS_TARGET_GROUP_ARN" then some ""
  else none

/-- C6: for every event missing its expected first record or subject (no
Records key, empty Records list, no Sns key, or no Subject key), the
handler fails with an indexing/lookup error and attempts no control-plane
call. -/
theorem C6_malformed_event_fails_before_call {Ctx : Type} (elb_client : ElbClient)
    (ev : Event) (ctx : Ctx) (env : Env)
    (h : ev.records = none ∨ ev.records = some [] ∨
         (∃ r rs, ev.records = some (r :: rs) ∧ r.sns = none) ∨
         (∃ r rs b, ev.records = some (r :: rs) ∧ r.sns = some b ∧ b.subject = none)) :
    ∃ e, Err.isLookup e = true ∧ handler elb_client ev ctx env = (Except.error e, []) := by
  obtain ⟨e, hshape, hfe⟩ := firstSubject_error_of_malformed ev h
  refine ⟨e, ?_, by unfold handler; rw [hfe]⟩
  rcases hshape with rfl | rfl | rfl | rfl <;> rfl

/-- Witness for C6: an event with no Records key, with all three variables
present. -/
theorem C6_malformed_event_fails_before_call_witness :
    ∃ e, Err.isLookup e = true ∧
      handler wOkClient wEventNoRecords 0 wEnv = (Except.error e, []) :=
  C6_malformed_event_fails_before_call wOkClient wEventNoRecords 0 wEnv (Or.inl rfl)

/-- C7: only the first record is consulted: two events sharing a first
record, whatever their later records, produce identical handler results
(same outcome and same attempted calls). -/
theorem C7_only_first_record {Ctx : Type} (elb_client : ElbClient) (ctx : Ctx)
    (env : Env) (r : SnsRecord) (rs1 rs2 : List SnsRecord) :
    handler elb_client { records := some (r :: rs1) } ctx env =
      handler elb_client { records := some (r :: rs2) } ctx env := rfl

/-- C8: the context argument is never read, and the result is determined
solely by the event's first record and the three environment variables:
two runs agreeing on those — with any contexts of any types, any later
records, and any other variables — produce identical results. -/
theorem C8_context_unread {Ctx1 Ctx2 : Type} (elb_client : ElbClient) (ev ev2 : Event)
    (ctx1 : Ctx1) (ctx2 : Ctx2) (env env2 : Env)
    (hr : firstRecord ev = firstRecord ev2)
    (hl : env "LISTENER_ARN" = env2 "LISTENER_ARN")
    (hf : env "LAMBDA_TARGET_GROUP_ARN" = env2 "LAMBDA_TARGET_GROUP_ARN")
    (he : env "ECS_TARGET_GROUP_ARN" = env2 "ECS_TARGET_GROUP_ARN") :
    handler elb_client ev ctx1 env = handler elb_client ev2 ctx2 env2 := by
  unfold handler
  rw [firstSubject_eq_of_firstRecord_eq ev ev2 hr, hl, hf, he]

/-- Witness for C8: a natural-number context against a string context, an
extended event and an extended environment. -/
theorem C8_context_unread_witness :
    handler wOkClient wEvent 0 wEnv = handler wOkClient wEventExtra "some context" wEnvExtra :=
  C8_context_unread wOkClient wEvent wEventExtra 0 "some context" wEnv wEnvExtra
    rfl rfl rfl rfl

/-- C9: event parsing precedes configuration reads: on a malformed event
the handler's result is the same for every environment, and it is the
event's lookup error — one of KeyError Records, IndexError, KeyError Sns,
KeyError Subject — never an environment error, with no call attempted. -/
theorem C9_event_error_precedes_env {Ctx : Type} (elb_client : ElbClient) (ev : Event)
    (ctx : Ctx) (env1 env2 : Env)
    (h : ev.records = none ∨ ev.records = some [] ∨
         (∃ r rs, ev.records = some (r :: rs) ∧ r.sns = none) ∨
         (∃ r rs b, ev.records = some (r :: rs) ∧ r.sns = some b ∧ b.subject = none)) :
    ∃ e, (e = Err.keyError "Records" ∨ e = Err.indexError ∨ e = Err.keyError "Sns" ∨
          e = Err.keyError "Subject") ∧
      handler elb_client ev ctx env1 = (Except.error e, []) ∧
      handler elb_client ev ctx env2 = (Except.error e, []) := by
  obtain ⟨e, hshape, hfe⟩ := firstSubject_error_of_malformed ev h
  exact ⟨e, hshape, by unfold handler; rw [hfe], by unfold handler; rw [hfe]⟩

/-- Witness for C9: an event with no Records key, compared across the
empty environment and the full scenario environment. -/
theorem C9_event_error_precedes_env_witness :
    ∃ e, (e = Err.keyError "Records" ∨ e = Err.indexError ∨ e = Err.keyError "Sns" ∨
          e = Err.keyError "Subject") ∧
      handler wOkClient wEventNoRecords 0 wEnvEmpty = (Except.error e, []) ∧
      handler wOkClient wEventNoRecords 0 wEnv = (Except.error e, []) :=
  C9_event_error_precedes_env wOkClient wEventNoRecords 0 wEnvEmpty wEnv (Or.inl rfl)

/-- C10: no local validation of the identifiers: whatever three strings the
environment holds — empty or malformed included — the single issued call
carries exactly those strings as the listener ARN and the two target-group
ARNs. -/
theorem C10_identifiers_passed_verbatim {Ctx : Type} (elb_client : ElbClient) (ev : Event)
    (ctx : Ctx) (env : Env) (subj l fn ecs : String)
    (hs : firstSubject ev = Except.ok subj)
    (hl : env "LISTENER_ARN" = some l)
    (hf : env "LAMBDA_TARGET_GROUP_ARN" = some fn)
    (he : env "ECS_TARGET_GROUP_ARN" = some ecs) :
    (handler elb_client ev ctx env).2 = [modify_listener_request l fn ecs] ∧
    (modify_listener_request l fn ecs).listenerArn = l ∧
    (modify_listener_request l fn ecs).defaultActions.map
        (fun a => a.forwardConfig.targetGroups.map (fun tg => tg.targetGroupArn)) =
      [[fn, ecs]] := by
  refine ⟨?_, rfl, rfl⟩
  rw [handler_run elb_client ev ctx env subj l fn ecs hs hl hf he]
  exact direct_traffic_to_ecs_calls elb_client l fn ecs

/-- Witness for C10: the environment holds an empty string, a non-ARN
string, and an empty string; the call carries them verbatim. -/
theorem C10_identifiers_passed_verbatim_witness :
    (handler wOkClient wEvent 0 wEnvOdd).2 = [modify_listener_request "" "not an arn" ""] ∧
    (modify_listener_request "" "not an arn" "").listenerArn = "" ∧
    (modify_listener_request "" "not an arn" "").defaultActions.map
        (fun a => a.forwardConfig.targetGroups.map (fun tg => tg.targetGroupArn)) =
      [["not an arn", ""]] :=
  C10_identifiers_passed_verbatim wOkClient wEvent 0 wEnvOdd
    "ALARM: high concurrency" "" "not an arn" "" rfl rfl rfl rfl

end GettingClose
